import Mathlib

/-!
Verification of the authentication state-transition contract of the
`oauth-rn-supabase` screen: a shallow embedding of `src/components/Auth.tsx`
(the `Auth` controller with `signInWithGoogle`, `signOut`,
`checkExistingSession`, `configureGoogleSignIn`) and of the profile view
(`getInitials`, `getDisplayName`), together with theorems about the
sign-in / sign-out state machine.

JavaScript string primitives used by the source (`split`, `trim`,
`toUpperCase`, `charAt`, indexing, the `||` operator on strings) are embedded
as structurally recursive functions on character lists so that every
definition evaluates by kernel reduction.
-/

namespace OAuthRN

/-! ## JavaScript string primitives -/

/-- JS `x || y` for `x : string | undefined`: falsy (`undefined` or `""`)
falls through to the default string `y`. -/
def jsStrOr (x : Option String) (y : String) : String :=
  match x with
  | none => y
  | some s => if s = "" then y else s

/-- JS `x || y` where both sides are `string | undefined`. -/
def jsOrOpt (x y : Option String) : Option String :=
  match x with
  | none => y
  | some s => if s = "" then y else some s

/-- Truthiness of a `string | undefined` value: `undefined` and `""` are falsy. -/
def jsTruthy (x : Option String) : Bool :=
  match x with
  | none => false
  | some s => s ≠ ""

/-- JS `String.prototype.split(sep)` on a character list: splitting the empty
string yields `[""]`, and adjacent separators yield empty fields. -/
def splitChars (sep : Char) : List Char → List (List Char)
  | [] => [[]]
  | c :: rest =>
    let r := splitChars sep rest
    if c = sep then [] :: r
    else
      match r with
      | [] => [[c]]
      | t :: ts => (c :: t) :: ts

/-- JS `s.split(sep)` for a single-character separator. -/
def jsSplit (s : String) (sep : Char) : List String :=
  (splitChars sep s.data).map String.mk

/-- JS `String.prototype.trim`: strip leading and trailing whitespace. -/
def jsTrim (s : String) : String :=
  String.mk (((s.data.dropWhile Char.isWhitespace).reverse.dropWhile
    Char.isWhitespace).reverse)

/-- JS `String.prototype.toUpperCase` (ASCII fragment). -/
def jsToUpper (s : String) : String :=
  String.mk (s.data.map Char.toUpper)

/-- JS `s.charAt(0)`: first character as a string, `""` when out of range. -/
def jsCharAt0 (s : String) : String :=
  String.mk (s.data.take 1)

/-- JS `s[0]` interpolated into a template literal: indexing the empty string
gives `undefined`, which a template literal renders as the text `undefined`. -/
def jsIndex0 (s : String) : String :=
  match s.data with
  | [] => "undefined"
  | c :: _ => String.mk [c]

/-! ## Data model (`src/components/Auth.tsx`, interfaces `User`, `AuthState`) -/

/-- The `User` interface: `displayName`, `photoURL`, `provider` are optional. -/
structure User where
  id : String
  email : String
  displayName : Option String
  photoURL : Option String
  provider : Option String
  deriving Repr, DecidableEq

/-- The `AuthState` interface owned by the `Auth` component. -/
structure AuthState where
  user : Option User
  loading : Bool
  error : Option String
  isConfigured : Bool
  deriving Repr, DecidableEq

/-- The initial state passed to `useState` in `Auth`. -/
def initialAuthState : AuthState :=
  { user := none, loading := false, error := none, isConfigured := false }

/-- A `Partial<AuthState>` argument to `updateAuthState`: a present field
(`some v`) overwrites, an absent field leaves the previous value. -/
structure AuthUpdate where
  user : Option (Option User)
  loading : Option Bool
  error : Option (Option String)
  isConfigured : Option Bool
  deriving Repr

/-- `updateAuthState`: spread semantics `{ ...prev, ...updates }`. -/
def updateAuthState (s : AuthState) (u : AuthUpdate) : AuthState :=
  { user := u.user.getD s.user
    loading := u.loading.getD s.loading
    error := u.error.getD s.error
    isConfigured := u.isConfigured.getD s.isConfigured }

/-! ## External collaborators as oracles -/

/-- Status codes distinguished by the sign-in error mapping
(`statusCodes` of the Google Sign-In SDK). -/
inductive GStatusCode where
  | SIGN_IN_CANCELLED
  | IN_PROGRESS
  | PLAY_SERVICES_NOT_AVAILABLE
  | otherCode
  deriving Repr, DecidableEq

/-- A thrown JavaScript value, as classified by the `catch` blocks:
an `Error` instance (carrying `.message`), a non-`Error` object possibly
carrying a Google `.code` and `.message`, or any other value. -/
inductive JsError where
  | jsError (message : String)
  | googleError (code : Option GStatusCode) (message : Option String)
  | otherThrown
  deriving Repr, DecidableEq

/-- Profile payload returned by `GoogleSignin.signIn()` inside `result.data.user`. -/
structure GoogleUser where
  email : String
  name : Option String
  photo : Option String
  deriving Repr, DecidableEq

/-- `result.data` of `GoogleSignin.signIn()`: profile plus optional `idToken`. -/
structure GoogleSignInData where
  user : GoogleUser
  idToken : Option String
  deriving Repr, DecidableEq

/-- The full `GoogleSignin.signIn()` result; `data` itself may be absent. -/
structure GoogleSignInResult where
  data : Option GoogleSignInData
  deriving Repr, DecidableEq

/-- `data.user` of the Supabase `signInWithIdToken` response. -/
structure SupaUser where
  id : String
  email : Option String
  deriving Repr, DecidableEq

/-- Supabase `signInWithIdToken` response: `data.user` and in-band `error`
(modelled by its `.message`). -/
structure SupaAuthResponse where
  user : Option SupaUser
  error : Option String
  deriving Repr, DecidableEq

/-- Oracle for every external call `signInWithGoogle` can make, each
modelled as either a resolved value or a rejection with a thrown value. -/
structure SignInEnv where
  platformOS : String
  hasPlayServices : Except JsError Unit
  googleSignOut : Except JsError Unit
  googleSignIn : Except JsError GoogleSignInResult
  supabaseAuth : Except JsError SupaAuthResponse
  deriving Repr

/-- Oracle for `signOut`: the Google-side sign-out outcome and the Supabase
sign-out outcome (resolved with an in-band optional error message, or rejected). -/
structure SignOutEnv where
  googleSignOut : Except JsError Unit
  supabaseSignOut : Except JsError (Option String)
  deriving Repr

/-- Oracle for `checkExistingSession`: metadata object of the session user. -/
structure SessionUserMeta where
  full_name : Option String
  name : Option String
  avatar_url : Option String
  picture : Option String
  deriving Repr, DecidableEq

/-- `session.user` as read by `checkExistingSession`; `user_metadata` may be
absent (the source reads it with `?.`). -/
structure SessionUser where
  id : String
  email : Option String
  user_metadata : Option SessionUserMeta
  deriving Repr, DecidableEq

/-- Oracle for `supabase.auth.getSession()`: a rejection, or a resolved value
whose `session?.user` is `none` or a session user. -/
structure SessionEnv where
  getSession : Except JsError (Option SessionUser)
  deriving Repr

/-- The external calls an operation performs, in order. -/
inductive ExtCall where
  | hasPlayServicesCall
  | googleSignOutCall
  | googleSignInCall
  | supabaseSignInCall
  | supabaseSignOutCall
  deriving Repr, DecidableEq

/-- One run of an operation: the final state, the trace of states after each
`updateAuthState` (ending in the final state), and the external calls made. -/
structure OpRun where
  final : AuthState
  states : List AuthState
  calls : List ExtCall
  deriving Repr

/-! ## configureGoogleSignIn and the startup sequence -/

/-- `configureGoogleSignIn`: returns `false` when the environment variable is
absent or falsy, otherwise the success of the `GoogleSignin.configure` call
(`false` when it throws, caught locally). -/
def configureGoogleSignIn (webClientId : Option String) (configureOk : Bool) :
    Bool :=
  if jsTruthy webClientId then configureOk else false

/-- `setAuthState(prev => ({ ...prev, isConfigured }))` in the mount effect. -/
def applyConfigured (cfg : Bool) (s : AuthState) : AuthState :=
  { s with isConfigured := cfg }

/-- `checkExistingSession`: on a live session populate `user` from session
claims (preferring `full_name`/`name` and `avatar_url`/`picture`); a rejection
is swallowed and an absent session leaves the state untouched. -/
def checkExistingSession (env : SessionEnv) (s : AuthState) : AuthState :=
  match env.getSession with
  | .error _ => s
  | .ok none => s
  | .ok (some su) =>
      let meta := su.user_metadata
      let u : User :=
        { id := su.id
          email := jsStrOr su.email ""
          displayName := jsOrOpt (meta.bind SessionUserMeta.full_name)
            (meta.bind SessionUserMeta.name)
          photoURL := jsOrOpt (meta.bind SessionUserMeta.avatar_url)
            (meta.bind SessionUserMeta.picture)
          provider := some "google" }
      { s with user := some u }

/-- The mount effect: configure, store the flag, then restore the session. -/
def startup (webClientId : Option String) (configureOk : Bool)
    (env : SessionEnv) (s : AuthState) : AuthState :=
  checkExistingSession env
    (applyConfigured (configureGoogleSignIn webClientId configureOk) s)

/-! ## signInWithGoogle -/

/-- The error-message mapping of the sign-in `catch` block: `Error` instances
contribute their message; Google error objects are mapped by status code with
unknown codes passing `message` through (defaulting to a fixed string); any
other thrown value yields the generic message. -/
def signInErrorMessage : JsError → String
  | .jsError m => m
  | .googleError code m =>
      match code with
      | some .SIGN_IN_CANCELLED => "Sign-in was cancelled"
      | some .IN_PROGRESS => "Sign-in is already in progress"
      | some .PLAY_SERVICES_NOT_AVAILABLE =>
          "Google Play Services is not available"
      | _ => jsStrOr m "Google Sign-In failed"
  | .otherThrown => "An unexpected error occurred"

/-- The `try` body of `signInWithGoogle` after the entry update: either the
`User` committed on success or the thrown value, together with the external
calls made, in order. Reads `isConfigured` from the state captured by the
closure. -/
def signInTryBody (env : SignInEnv) (s : AuthState) :
    Except JsError User × List ExtCall :=
  if env.platformOS ≠ "android" then
    (.error (.jsError "Google Sign-In is currently only available on Android"),
      [])
  else if !s.isConfigured then
    (.error (.jsError "Google Sign-In is not properly configured"), [])
  else
    match env.hasPlayServices with
    | .error e => (.error e, [.hasPlayServicesCall])
    | .ok _ =>
      match env.googleSignOut with
      | .error e => (.error e, [.hasPlayServicesCall, .googleSignOutCall])
      | .ok _ =>
        match env.googleSignIn with
        | .error e =>
            (.error e,
              [.hasPlayServicesCall, .googleSignOutCall, .googleSignInCall])
        | .ok result =>
          match result.data with
          | none =>
              (.error (.jsError "No user data received from Google"),
                [.hasPlayServicesCall, .googleSignOutCall, .googleSignInCall])
          | some d =>
            if !jsTruthy d.idToken then
              (.error (.jsError "No ID token received from Google"),
                [.hasPlayServicesCall, .googleSignOutCall,
                  .googleSignInCall])
            else
              match env.supabaseAuth with
              | .error e =>
                  (.error e,
                    [.hasPlayServicesCall, .googleSignOutCall,
                      .googleSignInCall, .supabaseSignInCall])
              | .ok resp =>
                match resp.error with
                | some m =>
                    (.error
                      (.jsError ("Supabase authentication failed: " ++ m)),
                      [.hasPlayServicesCall, .googleSignOutCall,
                        .googleSignInCall, .supabaseSignInCall])
                | none =>
                  match resp.user with
                  | none =>
                      (.error
                        (.jsError "No user data received from Supabase"),
                        [.hasPlayServicesCall, .googleSignOutCall,
                          .googleSignInCall, .supabaseSignInCall])
                  | some su =>
                      (.ok
                        { id := su.id
                          email := jsStrOr su.email d.user.email
                          displayName := some (jsStrOr d.user.name "")
                          photoURL := some (jsStrOr d.user.photo "")
                          provider := some "google" },
                        [.hasPlayServicesCall, .googleSignOutCall,
                          .googleSignInCall, .supabaseSignInCall])

/-- `signInWithGoogle`: entry update `{ loading: true, error: null }`, the try
body, then on success `{ user, error: null }` or on any thrown error
`{ error: message }`, and in `finally` the update `{ loading: false }`. -/
def signInWithGoogle (env : SignInEnv) (s0 : AuthState) : OpRun :=
  let s1 := updateAuthState s0 ⟨none, some true, some none, none⟩
  match signInTryBody env s0 with
  | (.ok u, calls) =>
      let s2 := updateAuthState s1 ⟨some (some u), none, some none, none⟩
      let s3 := updateAuthState s2 ⟨none, some false, none, none⟩
      ⟨s3, [s1, s2, s3], calls⟩
  | (.error e, calls) =>
      let s2 := updateAuthState s1
        ⟨none, none, some (some (signInErrorMessage e)), none⟩
      let s3 := updateAuthState s2 ⟨none, some false, none, none⟩
      ⟨s3, [s1, s2, s3], calls⟩

/-! ## signOut -/

/-- The error-message mapping of the sign-out `catch` block. -/
def signOutErrorMessage : JsError → String
  | .jsError m => m
  | _ => "Sign-out failed"

/-- `signOut`: entry update `{ loading: true, error: null }`; the Google-side
sign-out is wrapped in its own `try`/`catch` whose error is only logged; the
Supabase sign-out's in-band error is rethrown as
`Sign-out failed: <message>`; on success `{ user: null }`; in `finally`
`{ loading: false }`. -/
def signOut (env : SignOutEnv) (s0 : AuthState) : OpRun :=
  let s1 := updateAuthState s0 ⟨none, some true, some none, none⟩
  let calls : List ExtCall := [.googleSignOutCall, .supabaseSignOutCall]
  match env.supabaseSignOut with
  | .ok none =>
      let s2 := updateAuthState s1 ⟨some none, none, none, none⟩
      let s3 := updateAuthState s2 ⟨none, some false, none, none⟩
      ⟨s3, [s1, s2, s3], calls⟩
  | .ok (some m) =>
      let s2 := updateAuthState s1
        ⟨none, none, some (some ("Sign-out failed: " ++ m)), none⟩
      let s3 := updateAuthState s2 ⟨none, some false, none, none⟩
      ⟨s3, [s1, s2, s3], calls⟩
  | .error e =>
      let s2 := updateAuthState s1
        ⟨none, none, some (some (signOutErrorMessage e)), none⟩
      let s3 := updateAuthState s2 ⟨none, some false, none, none⟩
      ⟨s3, [s1, s2, s3], calls⟩

/-! ## Profile view (`AuthDisplay`) -/

/-- `getInitials` of the profile view: `"?"` for a falsy name; for two or more
space-separated tokens, the first characters of the first and last tokens
uppercased; otherwise the uppercased first character of the name. -/
def getInitials (name : Option String) : String :=
  match name with
  | none => "?"
  | some n =>
    if n = "" then "?"
    else
      let names := jsSplit (jsTrim n) ' '
      if 2 ≤ names.length then
        jsToUpper (jsIndex0 (names.headD "") ++ jsIndex0 (names.getLastD ""))
      else
        jsToUpper (jsCharAt0 n)

/-- The initials rendered in the photo placeholder:
`getInitials(user.displayName)`. -/
def displayedInitials (u : User) : String :=
  getInitials u.displayName

/-- `getDisplayName` of the profile view: the display name when truthy, else
the capitalised local part of the email when truthy, else `"User"`. -/
def getDisplayName (user : Option User) : String :=
  match user with
  | none => "User"
  | some u =>
    if jsTruthy u.displayName then (u.displayName).getD ""
    else if u.email ≠ "" then
      let emailName := (jsSplit u.email '@').headD ""
      jsToUpper (jsCharAt0 emailName) ++ String.mk (emailName.data.drop 1)
    else "User"



/-! ## Concrete runs used by counterexamples and witnesses -/

/-- State after a successful configuration with nobody signed in. -/
def readyState : AuthState :=
  { user := none, loading := false, error := none, isConfigured := true }

/-- Google profile payload used in the concrete runs. -/
def sampleGoogleUser : GoogleUser :=
  { email := "g@x.com", name := some "G U", photo := some "p.jpg" }

/-- Environment in which every external call succeeds. -/
def happyEnv : SignInEnv :=
  { platformOS := "android"
    hasPlayServices := .ok ()
    googleSignOut := .ok ()
    googleSignIn := .ok ⟨some ⟨sampleGoogleUser, some "tok"⟩⟩
    supabaseAuth := .ok ⟨some ⟨"uid", some "b@x.com"⟩, none⟩ }

/-- Environment in which only the defensive provider-side sign-out fails. -/
def resetFailEnv : SignInEnv :=
  { happyEnv with googleSignOut := .error (.jsError "reset failed") }

/-- Environment in which the provider returns a profile but no identity token. -/
def noTokenEnv : SignInEnv :=
  { happyEnv with googleSignIn := .ok ⟨some ⟨sampleGoogleUser, none⟩⟩ }

/-- Environment in which the provider supplies neither name nor photo. -/
def noNameEnv : SignInEnv :=
  { happyEnv with googleSignIn := .ok ⟨some ⟨⟨"g@x.com", none, none⟩, some "tok"⟩⟩ }

/-- A signed-in user with no display name, as the profile view receives it. -/
def adaNoName : User :=
  { id := "u1", email := "ada@x.com", displayName := none, photoURL := none,
    provider := some "google" }

/-! ## Claims -/

/-- C1, counterexample: in a run where every collaborator succeeds except the
defensive provider-side sign-out before the fresh sign-in, `signIn()` fails:
the reset error becomes the recorded error message, no user is committed, and
the main provider sign-in is never invoked — the reset error is not swallowed. -/
theorem c1_counterexample :
    (signInWithGoogle resetFailEnv readyState).final.error = some "reset failed" ∧
    (signInWithGoogle resetFailEnv readyState).final.user = none ∧
    ExtCall.googleSignInCall ∉ (signInWithGoogle resetFailEnv readyState).calls := by
  decide

/-- C1, amended: during `signIn()`, an error raised by the defensive
provider-side sign-out is not swallowed: it aborts the attempt before the main
provider sign-in, sets `error` to the mapped message, and leaves `user`
unchanged. (Only `signOut()`'s best-effort cleanup swallows such errors.) -/
theorem c1_reset_error_fails_signin (env : SignInEnv) (s : AuthState)
    (e : JsError)
    (h1 : env.platformOS = "android") (h2 : s.isConfigured = true)
    (h3 : env.hasPlayServices = .ok ()) (h4 : env.googleSignOut = .error e) :
    (signInWithGoogle env s).final.error = some (signInErrorMessage e) ∧
    (signInWithGoogle env s).final.user = s.user ∧
    ExtCall.googleSignInCall ∉ (signInWithGoogle env s).calls := by
  simp [signInWithGoogle, signInTryBody, h1, h2, h3, h4, updateAuthState]

/-- C1, witness: the amended statement applied to the concrete failing-reset run. -/
theorem c1_witness :
    resetFailEnv.googleSignOut = .error (.jsError "reset failed") ∧
    (signInWithGoogle resetFailEnv readyState).final.user = readyState.user :=
  ⟨rfl,
    (c1_reset_error_fails_signin resetFailEnv readyState (.jsError "reset failed")
      rfl rfl rfl rfl).2.1⟩

/-- C2, counterexample: for a user with no display name and email
`ada@x.com`, the placeholder initials are the literal `?`, not `A` — the
initials computation receives only `displayName` and never the email. -/
theorem c2_counterexample :
    displayedInitials adaNoName = "?" ∧ displayedInitials adaNoName ≠ "A" := by
  decide

/-- C2, amended: display name "Ada Lovelace" yields initials "AL" (first
letter of first and last tokens, uppercased); when the display name is absent
the initials are the literal "?" regardless of the email — the email's local
part feeds only the textual display name, never the initials. -/
theorem c2_initials (id email : String) (photo prov : Option String) :
    displayedInitials
      { id := id, email := email, displayName := some "Ada Lovelace",
        photoURL := photo, provider := prov } = "AL" ∧
    displayedInitials
      { id := id, email := email, displayName := none,
        photoURL := photo, provider := prov } = "?" := by
  exact ⟨rfl, rfl⟩

/-- C3: whenever `signIn()` ends with an error recorded, the `user` field of
the final state is exactly the `user` field of the state the operation started
from — no failure path writes `user`. -/
theorem c3_failed_signin_preserves_user (env : SignInEnv) (s : AuthState)
    (h : (signInWithGoogle env s).final.error ≠ none) :
    (signInWithGoogle env s).final.user = s.user := by
  rcases hb : signInTryBody env s with ⟨res, calls⟩
  cases res with
  | error e => simp [signInWithGoogle, hb, updateAuthState]
  | ok u =>
    exact absurd (by simp [signInWithGoogle, hb, updateAuthState]) h

/-- C3, witness: the missing-token failure leaves `user` untouched. -/
theorem c3_witness :
    (signInWithGoogle noTokenEnv readyState).final.error ≠ none ∧
    (signInWithGoogle noTokenEnv readyState).final.user = readyState.user :=
  ⟨by decide, c3_failed_signin_preserves_user noTokenEnv readyState (by decide)⟩

/-- C4: in every run of `signIn()` and of `signOut()`, the first state update
sets `loading` to `true`, every intermediate state of the run has `loading`
true, and the final state has `loading` false — `loading` is true exactly for
the span of the operation. -/
theorem c4_loading_span (envI : SignInEnv) (envO : SignOutEnv)
    (s s' : AuthState) :
    ((signInWithGoogle envI s).states.head?.map AuthState.loading = some true ∧
      (signInWithGoogle envI s).states.dropLast.all AuthState.loading = true ∧
      (signInWithGoogle envI s).final.loading = false) ∧
    ((signOut envO s').states.head?.map AuthState.loading = some true ∧
      (signOut envO s').states.dropLast.all AuthState.loading = true ∧
      (signOut envO s').final.loading = false) := by
  constructor
  · rcases hb : signInTryBody envI s with ⟨res, calls⟩
    cases res <;> simp [signInWithGoogle, hb, updateAuthState]
  · cases ho : envO.supabaseSignOut with
    | error e => simp [signOut, ho, updateAuthState]
    | ok v => cases v <;> simp [signOut, ho, updateAuthState]

/-- C5: the outcome of `signOut()` does not depend on the provider-side
sign-out result at all (its failure is only logged); when the backend sign-out
succeeds the final `user` is absent; when the backend reports an error with
message `m`, `user` is left unchanged and `error` is set to
`Sign-out failed: m`. -/
theorem c5_signout_contract (s : AuthState) (g g' : Except JsError Unit)
    (supa : Except JsError (Option String)) (m : String) :
    signOut ⟨g, supa⟩ s = signOut ⟨g', supa⟩ s ∧
    (signOut ⟨g, .ok none⟩ s).final.user = none ∧
    (signOut ⟨g, .ok (some m)⟩ s).final.user = s.user ∧
    (signOut ⟨g, .ok (some m)⟩ s).final.error =
      some ("Sign-out failed: " ++ m) := by
  exact ⟨rfl, rfl, rfl, rfl⟩



/-- C6: on every successful completion of `signIn()` — all precondition checks
pass, the provider returns a profile with a truthy (non-empty) identity token,
and the backend returns a user without error — the committed user has
`provider = "google"`, `id` from the backend record, `email` preferring the
backend record and falling back to the provider profile,
`displayName`/`photoURL` from the provider profile, and `error` is cleared. -/
theorem c6_success_commits_user (env : SignInEnv) (s : AuthState)
    (gu : GoogleUser) (tok : String) (su : SupaUser)
    (h1 : env.platformOS = "android") (h2 : s.isConfigured = true)
    (h3 : env.hasPlayServices = .ok ()) (h4 : env.googleSignOut = .ok ())
    (h5 : env.googleSignIn = .ok ⟨some ⟨gu, some tok⟩⟩) (h5t : tok ≠ "")
    (h6 : env.supabaseAuth = .ok ⟨some su, none⟩) :
    (signInWithGoogle env s).final.user = some
      { id := su.id, email := jsStrOr su.email gu.email,
        displayName := some (jsStrOr gu.name ""),
        photoURL := some (jsStrOr gu.photo ""),
        provider := some "google" } ∧
    (signInWithGoogle env s).final.error = none := by
  simp [signInWithGoogle, signInTryBody, jsTruthy, h1, h2, h3, h4, h5, h5t,
    h6, updateAuthState]

/-- C6, witness: the fully successful concrete run commits the expected user. -/
theorem c6_witness :
    happyEnv.supabaseAuth = .ok ⟨some ⟨"uid", some "b@x.com"⟩, none⟩ ∧
    (signInWithGoogle happyEnv readyState).final.user = some
      { id := "uid", email := jsStrOr (some "b@x.com") "g@x.com",
        displayName := some (jsStrOr (some "G U") ""),
        photoURL := some (jsStrOr (some "p.jpg") ""),
        provider := some "google" } :=
  ⟨rfl,
    (c6_success_commits_user happyEnv readyState sampleGoogleUser "tok"
      ⟨"uid", some "b@x.com"⟩ rfl rfl rfl rfl rfl (by decide) rfl).1⟩

/-- C7: when the provider sign-in resolves with a profile payload but no
identity token, `signIn()` fails with the missing-credential message before
any backend call: `error` is set to that message, a previously absent `user`
stays absent, and the backend exchange is never invoked. -/
theorem c7_missing_token_fails_before_backend (env : SignInEnv)
    (s : AuthState) (gu : GoogleUser)
    (h1 : env.platformOS = "android") (h2 : s.isConfigured = true)
    (h3 : env.hasPlayServices = .ok ()) (h4 : env.googleSignOut = .ok ())
    (h5 : env.googleSignIn = .ok ⟨some ⟨gu, none⟩⟩)
    (h6 : s.user = none) :
    (signInWithGoogle env s).final.error =
      some "No ID token received from Google" ∧
    (signInWithGoogle env s).final.user = none ∧
    ExtCall.supabaseSignInCall ∉ (signInWithGoogle env s).calls := by
  simp [signInWithGoogle, signInTryBody, signInErrorMessage, jsTruthy, h1,
    h2, h3, h4, h5, h6, updateAuthState]

/-- C7, witness: the concrete profile-without-token run. -/
theorem c7_witness :
    noTokenEnv.googleSignIn = .ok ⟨some ⟨sampleGoogleUser, none⟩⟩ ∧
    (signInWithGoogle noTokenEnv readyState).final.error =
      some "No ID token received from Google" :=
  ⟨rfl,
    (c7_missing_token_fails_before_backend noTokenEnv readyState
      sampleGoogleUser rfl rfl rfl rfl rfl rfl).1⟩

/-- C8: the state at mount is `user` absent, `loading` false, `error` absent,
`isConfigured` false; the startup sequence assigns `isConfigured` exactly the
configuration result (session restoration does not touch it), and neither
`signIn()` nor `signOut()` nor session restoration ever writes the flag — every
state of their runs carries the starting value, so once true it never reverts. -/
theorem c8_configured_set_once (webClientId : Option String) (cfgOk : Bool)
    (senv : SessionEnv) (envI : SignInEnv) (envO : SignOutEnv)
    (s sI sO : AuthState) :
    initialAuthState =
      { user := none, loading := false, error := none, isConfigured := false } ∧
    (startup webClientId cfgOk senv s).isConfigured =
      configureGoogleSignIn webClientId cfgOk ∧
    (checkExistingSession senv s).isConfigured = s.isConfigured ∧
    (signInWithGoogle envI sI).states.all
      (fun t => t.isConfigured == sI.isConfigured) = true ∧
    (signOut envO sO).states.all
      (fun t => t.isConfigured == sO.isConfigured) = true := by
  refine ⟨rfl, ?_, ?_, ?_, ?_⟩
  · cases hg : senv.getSession with
    | error e => simp [startup, checkExistingSession, applyConfigured, hg]
    | ok v => cases v <;>
        simp [startup, checkExistingSession, applyConfigured, hg]
  · cases hg : senv.getSession with
    | error e => simp [checkExistingSession, hg]
    | ok v => cases v <;> simp [checkExistingSession, hg]
  · rcases hb : signInTryBody envI sI with ⟨res, calls⟩
    cases res <;> simp [signInWithGoogle, hb, updateAuthState]
  · cases ho : envO.supabaseSignOut with
    | error e => simp [signOut, ho, updateAuthState]
    | ok v => cases v <;> simp [signOut, ho, updateAuthState]

/-- C9: after a successful `signIn()`, the committed user's `displayName` and
`photoURL` are present strings — the empty string when the provider profile
supplies no name or photo, never an absent field — and when the provider name
is missing or empty the placeholder initials computed from the committed user
are the literal `?` (the falsy branch of `getInitials`). -/
theorem c9_profile_fields_present (env : SignInEnv) (s : AuthState)
    (gu : GoogleUser) (tok : String) (su : SupaUser)
    (h1 : env.platformOS = "android") (h2 : s.isConfigured = true)
    (h3 : env.hasPlayServices = .ok ()) (h4 : env.googleSignOut = .ok ())
    (h5 : env.googleSignIn = .ok ⟨some ⟨gu, some tok⟩⟩) (h5t : tok ≠ "")
    (h6 : env.supabaseAuth = .ok ⟨some su, none⟩) :
    ∃ u, (signInWithGoogle env s).final.user = some u ∧
      u.displayName = some (jsStrOr gu.name "") ∧
      u.photoURL = some (jsStrOr gu.photo "") ∧
      (gu.name = none ∨ gu.name = some "" → displayedInitials u = "?") := by
  refine ⟨{ id := su.id, email := jsStrOr su.email gu.email,
            displayName := some (jsStrOr gu.name ""),
            photoURL := some (jsStrOr gu.photo ""),
            provider := some "google" }, ?_, rfl, rfl, ?_⟩
  · simp [signInWithGoogle, signInTryBody, jsTruthy, h1, h2, h3, h4, h5,
      h5t, h6, updateAuthState]
  · intro hn
    rcases hn with hn | hn <;>
      simp [displayedInitials, getInitials, jsStrOr, hn]

/-- C9, witness: a successful run in which the provider supplies neither name
nor photo commits empty-string fields and yields the `?` initials. -/
theorem c9_witness :
    noNameEnv.platformOS = "android" ∧
    (∃ u, (signInWithGoogle noNameEnv readyState).final.user = some u ∧
      u.displayName = some (jsStrOr (none : Option String) "") ∧
      u.photoURL = some (jsStrOr (none : Option String) "") ∧
      ((none : Option String) = none ∨ (none : Option String) = some "" →
        displayedInitials u = "?")) :=
  ⟨rfl,
    c9_profile_fields_present noNameEnv readyState ⟨"g@x.com", none, none⟩
      "tok" ⟨"uid", some "b@x.com"⟩ rfl rfl rfl rfl rfl (by decide) rfl⟩

/-- C10: the first state update of both `signIn()` and `signOut()` sets
`loading` to true and `error` to absent, so an error message from a previous
attempt never persists into the in-flight span of a new attempt. -/
theorem c10_error_cleared_at_entry (envI : SignInEnv) (envO : SignOutEnv)
    (s s' : AuthState) :
    (signInWithGoogle envI s).states.head?.map
      (fun t => (t.loading, t.error)) = some (true, none) ∧
    (signOut envO s').states.head?.map
      (fun t => (t.loading, t.error)) = some (true, none) := by
  constructor
  · rcases hb : signInTryBody envI s with ⟨res, calls⟩
    cases res <;> simp [signInWithGoogle, hb, updateAuthState]
  · cases ho : envO.supabaseSignOut with
    | error e => simp [signOut, ho, updateAuthState]
    | ok v => cases v <;> simp [signOut, ho, updateAuthState]

end OAuthRN
